import Mathlib

/-!
Verification development for the real-time session and broadcast core of the
blueprint-node chat/presence server (src/server.js and src/db.js).

The embedding is shallow: every socket event handler of src/server.js is
translated into a pure Lean function from a server state to a server state
plus a list of emitted outbound events, and the persistence-gateway
operations of src/db.js are translated into pure functions on a database
state.  JavaScript runtime values that flow into the handlers (the
`playerUpdate` and `playerProfile` payloads) are modelled by an explicit
`JSValue` type with JavaScript truthiness and number coercion.
-/

namespace Blueprint

/-! ## JavaScript values

The `playerUpdate` payload can be an arbitrary JavaScript value; the handler
inspects it with truthiness tests (`!payload`, `!payload.position`), property
access, and `Number(...) || 0` coercion.  We model the value universe needed
for those operations.  JavaScript numbers are IEEE doubles; the handlers never
do arithmetic on them, only coercion and truthiness, so we model a number as
either a rational, one of the two infinities, or NaN. -/

inductive JSNum where
  | nan
  | inf
  | neginf
  | val (q : ℚ)
deriving DecidableEq

/-- JavaScript truthiness of a number: `NaN`, `0` and `-0` are falsy. -/
def JSNum.truthy : JSNum → Bool
  | .nan => false
  | .inf => true
  | .neginf => true
  | .val q => q ≠ 0

inductive JSValue where
  | jsUndefined
  | null
  | jbool (b : Bool)
  | jnum (n : JSNum)
  | jstr (s : String)
  | jobj (fields : List (String × JSValue))

/-- JavaScript truthiness: `undefined`, `null`, `false`, falsy numbers and the
empty string are falsy; every object is truthy. -/
def JSValue.truthy : JSValue → Bool
  | .jsUndefined => false
  | .null => false
  | .jbool b => b
  | .jnum n => n.truthy
  | .jstr s => s ≠ ""
  | .jobj _ => true

/-- Property access `v.k` on a value that is not `null`/`undefined`: a field
lookup on objects, `undefined` on primitives.  (The handlers only access
properties after a truthiness guard, so the throwing cases never arise.) -/
def JSValue.getField : JSValue → String → JSValue
  | .jobj fields, k => (fields.lookup k).getD .jsUndefined
  | _, _ => .jsUndefined

/-- Whether an object value actually carries the field `k` (used to state that
a field is *present*, as opposed to truthy). -/
def JSValue.hasField : JSValue → String → Bool
  | .jobj fields, k => (fields.lookup k).isSome
  | _, _ => false

/-! ### The `Number(...)` coercion

`Number(str)` on a string: strip JavaScript whitespace; an empty remainder is
`0`; otherwise parse an optional sign followed by `Infinity` or a decimal
literal (digits, optional fraction, optional exponent), or an unsigned
radix-prefixed literal; anything else is `NaN`.  The model covers the decimal,
hexadecimal, octal and binary grammars of the builtin. -/

def isJsWhitespace (c : Char) : Bool :=
  (0x09 ≤ c.val && c.val ≤ 0x0D) || c.val == 0x20 || c.val == 0xA0 ||
    c.val == 0x1680 || (0x2000 ≤ c.val && c.val ≤ 0x200A) || c.val == 0x2028 ||
    c.val == 0x2029 || c.val == 0x202F || c.val == 0x205F || c.val == 0x3000 ||
    c.val == 0xFEFF

def isDigitChar (c : Char) : Bool :=
  48 ≤ c.toNat && c.toNat ≤ 57

def digitVal (c : Char) : Nat := c.toNat - 48

def hexDigitVal (c : Char) : Option Nat :=
  match c.toNat with
  | n =>
    if 48 ≤ n && n ≤ 57 then some (n - 48)
    else if 97 ≤ n && n ≤ 102 then some (n - 87)
    else if 65 ≤ n && n ≤ 70 then some (n - 55)
    else none

def natOfDigits (base : Nat) (ds : List Nat) : Nat :=
  ds.foldl (fun a d => a * base + d) 0

/-- Parse an unsigned radix literal (the part after `0x`, `0o`, `0b`). -/
def parseRadix (base : Nat) (valid : Char → Option Nat) (l : List Char) : JSNum :=
  if l.isEmpty then .nan
  else match l.mapM valid with
    | some ds => .val (natOfDigits base ds : ℚ)
    | none => .nan

/-- Parse an unsigned decimal literal `digits [. digits] [e[±]digits]`. -/
def parseDecimal (l : List Char) : Option ℚ :=
  let ip := l.takeWhile isDigitChar
  let r1 := l.drop ip.length
  let fp := match r1 with
    | '.' :: t => some (t.takeWhile isDigitChar)
    | _ => none
  let r2 := match r1 with
    | '.' :: t => t.drop (t.takeWhile isDigitChar).length
    | _ => r1
  let fracDigits := fp.getD []
  if ip.isEmpty && fracDigits.isEmpty then none
  else
    let mantissa : ℚ :=
      (natOfDigits 10 (ip.map digitVal) : ℚ) +
        (natOfDigits 10 (fracDigits.map digitVal) : ℚ) / (10 : ℚ) ^ fracDigits.length
    match r2 with
    | [] => some mantissa
    | e :: t =>
      if e = 'e' || e = 'E' then
        let (negExp, t2) := match t with
          | '+' :: u => (false, u)
          | '-' :: u => (true, u)
          | _ => (false, t)
        let ed := t2.takeWhile isDigitChar
        if ed.isEmpty || !(t2.drop ed.length).isEmpty then none
        else
          let ex := natOfDigits 10 (ed.map digitVal)
          some (if negExp then mantissa / (10 : ℚ) ^ ex else mantissa * (10 : ℚ) ^ ex)
      else none

/-- The string-to-number conversion performed by `Number(str)`. -/
def strToNum (s : String) : JSNum :=
  let l := (s.toList.dropWhile isJsWhitespace).reverse.dropWhile isJsWhitespace |>.reverse
  match l with
  | [] => .val 0
  | '0' :: 'x' :: t => parseRadix 16 hexDigitVal t
  | '0' :: 'X' :: t => parseRadix 16 hexDigitVal t
  | '0' :: 'o' :: t => parseRadix 8 (fun c => if '0' ≤ c && c ≤ '7' then some (digitVal c) else none) t
  | '0' :: 'O' :: t => parseRadix 8 (fun c => if '0' ≤ c && c ≤ '7' then some (digitVal c) else none) t
  | '0' :: 'b' :: t => parseRadix 2 (fun c => if c = '0' || c = '1' then some (digitVal c) else none) t
  | '0' :: 'B' :: t => parseRadix 2 (fun c => if c = '0' || c = '1' then some (digitVal c) else none) t
  | _ =>
    let (neg, l1) := match l with
      | '+' :: t => (false, t)
      | '-' :: t => (true, t)
      | _ => (false, l)
    if l1 = "Infinity".toList then (if neg then .neginf else .inf)
    else match parseDecimal l1 with
      | some q => .val (if neg then -q else q)
      | none => .nan

/-- The `Number(v)` coercion on an arbitrary value.  A plain object coerces
through its default string form `"[object Object]"`, which is `NaN`. -/
def JSValue.toNumber : JSValue → JSNum
  | .jsUndefined => .nan
  | .null => .val 0
  | .jbool b => .val (if b then 1 else 0)
  | .jnum n => n
  | .jstr s => strToNum s
  | .jobj _ => .nan

/-- The idiom `Number(v) || 0`: a falsy coercion result (`NaN`, `0`, `-0`)
is replaced by `0`. -/
def JSNum.orZero (n : JSNum) : JSNum := if n.truthy then n else .val 0

/-! ## Association-list maps

`activeUsers` and `activePlayers` are JavaScript `Map`s keyed by socket id.
A `Map` iterates in insertion order, `set` replaces in place, and `delete`
removes the key; an insertion-ordered association list models this exactly. -/

def mlookup {α : Type} : List (String × α) → String → Option α
  | [], _ => none
  | (k0, v0) :: t, k => if k0 = k then some v0 else mlookup t k

def mset {α : Type} : List (String × α) → String → α → List (String × α)
  | [], k, v => [(k, v)]
  | (k0, v0) :: t, k, v =>
    if k0 = k then (k, v) :: t else (k0, v0) :: mset t k v

def mdel {α : Type} : List (String × α) → String → List (String × α)
  | [], _ => []
  | (k0, v0) :: t, k => if k0 = k then t else (k0, v0) :: mdel t k

/-! ## The persistence gateway (src/db.js)

The gateway is a PostgreSQL store with `users`, `rooms` and `messages`
tables, each with a `SERIAL` primary key and a `created_at TIMESTAMP DEFAULT
CURRENT_TIMESTAMP` column.  We model the store as lists in insertion order
together with the next serial values and a monotone clock standing for
`CURRENT_TIMESTAMP`. -/

structure User where
  id : Nat
  username : String
  createdAt : Nat
deriving DecidableEq

structure Room where
  id : Nat
  name : String
  createdAt : Nat
deriving DecidableEq

structure DbMessage where
  id : Nat
  userId : Nat
  roomId : Nat
  message : String
  createdAt : Nat
deriving DecidableEq

structure DbState where
  users : List User
  rooms : List Room
  messages : List DbMessage
  nextUserId : Nat
  nextRoomId : Nat
  nextMessageId : Nat
  clock : Nat
deriving DecidableEq

/-- `SELECT * FROM users WHERE username = $1` (username is UNIQUE). -/
def getUserByUsername (db : DbState) (username : String) : Option User :=
  db.users.find? (fun u => u.username = username)

/-- `INSERT INTO users (username) VALUES ($1) ON CONFLICT (username) DO
NOTHING RETURNING *`, falling back to a re-fetch when the row existed. -/
def createUser (db : DbState) (username : String) : DbState × User :=
  match db.users.find? (fun u => u.username = username) with
  | some existing => (db, existing)
  | none =>
    let user : User := ⟨db.nextUserId, username, db.clock⟩
    ({ db with
        users := db.users ++ [user]
        nextUserId := db.nextUserId + 1
        clock := db.clock + 1 }, user)

/-- `SELECT * FROM rooms WHERE name = $1` (name is UNIQUE). -/
def getRoomByName (db : DbState) (roomName : String) : Option Room :=
  db.rooms.find? (fun r => r.name = roomName)

/-- `INSERT INTO rooms (name) VALUES ($1) ON CONFLICT (name) DO NOTHING
RETURNING *`, falling back to a re-fetch when the row existed. -/
def createRoom (db : DbState) (roomName : String) : DbState × Room :=
  match db.rooms.find? (fun r => r.name = roomName) with
  | some existing => (db, existing)
  | none =>
    let room : Room := ⟨db.nextRoomId, roomName, db.clock⟩
    ({ db with
        rooms := db.rooms ++ [room]
        nextRoomId := db.nextRoomId + 1
        clock := db.clock + 1 }, room)

/-- Insertion sort step for an ascending sort by a key. -/
def insertAscBy {α : Type} (key : α → Nat) (x : α) : List α → List α
  | [] => [x]
  | y :: ys => if key x < key y then x :: y :: ys else y :: insertAscBy key x ys

/-- Insertion sort, ascending by a key. -/
def sortAscBy {α : Type} (key : α → Nat) (l : List α) : List α :=
  l.foldr (insertAscBy key) []

/-- Insertion sort step for a descending sort by a key. -/
def insertDescBy {α : Type} (key : α → Nat) (x : α) : List α → List α
  | [] => [x]
  | y :: ys => if key y < key x then x :: y :: ys else y :: insertDescBy key x ys

/-- Insertion sort, descending by a key. -/
def sortDescBy {α : Type} (key : α → Nat) (l : List α) : List α :=
  l.foldr (insertDescBy key) []

/-- `SELECT * FROM rooms ORDER BY created_at ASC`. -/
def getAllRooms (db : DbState) : List Room :=
  sortAscBy Room.createdAt db.rooms

/-- `INSERT INTO messages (user_id, room_id, message) VALUES ($1,$2,$3)
RETURNING *`. -/
def saveMessage (db : DbState) (userId roomId : Nat) (message : String) :
    DbState × DbMessage :=
  let m : DbMessage := ⟨db.nextMessageId, userId, roomId, message, db.clock⟩
  ({ db with
      messages := db.messages ++ [m]
      nextMessageId := db.nextMessageId + 1
      clock := db.clock + 1 }, m)

/-- The rows of `messages m JOIN users u ON m.user_id = u.id WHERE
m.room_id = $1`, in message-table order: each message of the room paired with
its author's username (`id` is the users primary key, so `find?` matches the
unique row). -/
def roomJoinedRows (db : DbState) (roomId : Nat) : List (DbMessage × String) :=
  db.messages.filterMap (fun m =>
    if m.roomId = roomId then
      (db.users.find? (fun u => u.id = m.userId)).map (fun u => (m, u.username))
    else none)

/-- `SELECT m.*, u.username FROM messages m JOIN users u ON m.user_id = u.id
WHERE m.room_id = $1 ORDER BY m.created_at DESC LIMIT $2`, then
`rows.reverse()` to show oldest first.  The `limit` parameter defaults
to 50, as in src/db.js. -/
def getMessagesByRoom (db : DbState) (roomId : Nat) (limit : Nat := 50) :
    List (DbMessage × String) :=
  ((sortDescBy (fun p => p.1.createdAt) (roomJoinedRows db roomId)).take limit).reverse

/-! ## Server state (src/server.js)

`activeUsers : Map socketId → {username, userId, roomId, roomName}` and
`activePlayers : Map socketId → {position, rotation, username, color}` are the
two in-memory tables.  Socket.io room membership (entered by `socket.join`
and left by `socket.leave`) is the broadcast-group reverse index; a room key
is the string `room-${room.id}`, which is in bijection with the numeric room
id, so membership is recorded by id. -/

structure Session where
  username : String
  userId : Nat
  roomId : Nat
  roomName : String
deriving DecidableEq

structure Vec3 where
  x : JSNum
  y : JSNum
  z : JSNum
deriving DecidableEq

structure Player where
  position : Option Vec3
  rotation : Option Vec3
  username : Option String
  color : Option String
deriving DecidableEq

/-- A `playerUpdate` payload field sanitized into a vector:
`{ x: Number(v.x) || 0, y: Number(v.y) || 0, z: Number(v.z) || 0 }`. -/
def sanitizeVec (v : JSValue) : Vec3 :=
  ⟨(v.getField "x").toNumber.orZero,
   (v.getField "y").toNumber.orZero,
   (v.getField "z").toNumber.orZero⟩

structure Srv where
  db : DbState
  activeUsers : List (String × Session)
  activePlayers : List (String × Player)
  membership : List (String × List Nat)
deriving DecidableEq

/-- The socket.io rooms a socket currently belongs to. -/
def roomsOfSid (st : Srv) (sid : String) : List Nat :=
  (mlookup st.membership sid).getD []

/-- Whether a socket is currently a member of a room's broadcast group. -/
def isMember (st : Srv) (sid : String) (roomId : Nat) : Bool :=
  roomId ∈ roomsOfSid st sid

/-- `socket.join("room-" + id)`: enter a broadcast group (idempotent). -/
def socketJoin (m : List (String × List Nat)) (sid : String) (roomId : Nat) :
    List (String × List Nat) :=
  let l := (mlookup m sid).getD []
  mset m sid (if roomId ∈ l then l else l ++ [roomId])

/-- `socket.leave("room-" + id)`: leave a broadcast group. -/
def socketLeave (m : List (String × List Nat)) (sid : String) (roomId : Nat) :
    List (String × List Nat) :=
  let l := (mlookup m sid).getD []
  mset m sid (l.erase roomId)

/-- An entry of the `existingPlayers` snapshot sent to a new connection. -/
structure PlayerSnap where
  id : String
  position : Vec3
  rotation : Option Vec3
  username : Option String
  color : Option String
deriving DecidableEq

/-- Outbound socket.io events.  Each constructor records the wire event name
of src/server.js and its delivery target: `dest` is a direct emit to one
socket, `exceptSid` is `socket.broadcast.emit` (all but the sender) or
`socket.to(room).emit` (the room's members except the sender), and
constructors without a target field are `io.emit` / `io.to(room).emit`
broadcasts.  `playerProfileAckError` is the `playerProfileAck` wire event
carrying an `{error}` payload. -/
inductive Out where
  | existingPlayers (dest : String) (snapshot : List PlayerSnap)
  | activePlayerCount (count : Nat)
  | playerProfileAckError (dest : String) (msg : String)
  | playerProfileAck (dest : String) (id : String) (username : String) (color : String)
  | playerProfileUpdated (exceptSid : String) (id : String) (username : String) (color : String)
  | playerUpdated (exceptSid : String) (id : String) (position : Vec3)
      (rotation : Vec3) (username : Option String) (color : Option String)
  | messages (dest : String) (history : List (DbMessage × String))
  | userJoined (roomId : Nat) (exceptSid : String) (username : String) (message : String)
  | rooms (roomList : List Room)
  | newMessage (roomId : Nat) (id : Nat) (username : String) (message : String)
      (createdAt : Nat)
  | userLeft (roomId : Nat) (exceptSid : String) (username : String) (message : String)
  | playerDisconnected (exceptSid : String) (id : String)
  | errorEvt (dest : String) (msg : String)
deriving DecidableEq

/-- The socket a direct (requester-only) emit is addressed to, if the event is
one; broadcast events return `none`. -/
def Out.directTarget : Out → Option String
  | .existingPlayers d _ => some d
  | .playerProfileAckError d _ => some d
  | .playerProfileAck d _ _ _ => some d
  | .messages d _ => some d
  | .errorEvt d _ => some d
  | _ => none

/-! ## Event handlers

Each `socket.on(...)` handler of src/server.js becomes a function
`Srv → ... → Srv × List Out`.  The emitted output list is in emission order.

The `join` and `message` handlers run inside `try { ... } catch` with
`await`ed gateway calls, any of which may reject.  Failure is injected by a
`failAt : Option Nat` argument: `some k` makes the k-th gateway call issued
by this handler invocation (counting from 0 in dynamic call order) throw, at
which point control transfers to the `catch` block with all state mutations
and emissions made so far retained.  `none` is the failure-free run.

The color derivation `generateColorFromId` (src/server.js lines 18-50) is a
pure function of its string argument built from a SHA-1 digest and a
floating-point HSL-to-hex conversion; the spec places it out of scope as an
external pure utility.  The server logic uses only that it is deterministic
and returns a string starting with `#` (hence truthy), so the handlers are
parameterized by the function `genColor`. -/

/-- JavaScript `s.trim()` (strips Unicode whitespace from both ends). -/
def jsTrim (s : String) : String :=
  ⟨(s.toList.dropWhile isJsWhitespace).reverse.dropWhile isJsWhitespace |>.reverse⟩

/-- The number of UTF-16 code units of a character. -/
def utf16Len (c : Char) : Nat := if c.val < 0x10000 then 1 else 2

/-- The UTF-16 code-unit length of a character list. -/
def utf16Length (l : List Char) : Nat := (l.map utf16Len).sum

/-- Take at most `n` UTF-16 code units from the front.  (When the cut would
split a surrogate pair, JavaScript keeps a lone high surrogate, which is not
a Unicode scalar value; the model drops that half unit.) -/
def utf16Take (n : Nat) : List Char → List Char
  | [] => []
  | c :: cs => if utf16Len c ≤ n then c :: utf16Take (n - utf16Len c) cs else []

/-- JavaScript `s.slice(0, 20)`: the first 20 UTF-16 code units. -/
def jsSlice20 (s : String) : String := ⟨utf16Take 20 s.toList⟩

/-- The display name computed by the `playerProfile` handler:
`typeof username === 'string' ? username.trim().slice(0, 20) : ''`. -/
def profileName (username : JSValue) : String :=
  match username with
  | .jstr s => jsSlice20 (jsTrim s)
  | _ => ""

/-- An `activePlayers` entry with every field null, as created on connect and
as produced by the `|| {}` / `|| { username: null, color: null }` fallbacks
(a spread of an object without a key yields the same read as a null field). -/
def emptyPlayer : Player := ⟨none, none, none, none⟩

/-- The `io.on('connection', ...)` body that runs at accept time: create the
presence entry, send the snapshot of positioned players to the new socket,
and broadcast the refreshed connection count. -/
def connectHandler (st : Srv) (sid : String) : Srv × List Out :=
  let players := mset st.activePlayers sid emptyPlayer
  let snapshot := players.filterMap (fun p =>
    match p.2.position with
    | some pos => some (⟨p.1, pos, p.2.rotation, p.2.username, p.2.color⟩ : PlayerSnap)
    | none => none)
  ({ st with activePlayers := players },
   [.existingPlayers sid snapshot, .activePlayerCount players.length])

/-- The `socket.on('playerProfile', ...)` handler. -/
def playerProfileHandler (genColor : String → String) (st : Srv) (sid : String)
    (username : JSValue) : Srv × List Out :=
  let trimmed := profileName username
  if trimmed = "" then
    (st, [.playerProfileAckError sid "Name is required"])
  else
    let current := (mlookup st.activePlayers sid).getD emptyPlayer
    let color := match current.color with
      | some c => if c = "" then genColor (sid ++ trimmed) else c
      | none => genColor (sid ++ trimmed)
    let updated : Player := { current with username := some trimmed, color := some color }
    ({ st with activePlayers := mset st.activePlayers sid updated },
     [.playerProfileAck sid sid trimmed color,
      .playerProfileUpdated sid sid trimmed color])

/-- The `socket.on('playerUpdate', ...)` handler. -/
def playerUpdateHandler (st : Srv) (sid : String) (payload : JSValue) :
    Srv × List Out :=
  if !payload.truthy || !(payload.getField "position").truthy ||
      !(payload.getField "rotation").truthy then
    (st, [])
  else
    let pos := sanitizeVec (payload.getField "position")
    let rot := sanitizeVec (payload.getField "rotation")
    let existing := (mlookup st.activePlayers sid).getD emptyPlayer
    let updated : Player := { existing with position := some pos, rotation := some rot }
    ({ st with activePlayers := mset st.activePlayers sid updated },
     [.playerUpdated sid sid pos rot updated.username updated.color])

/-- The catch block of the `join` handler: emit the generic failure. -/
def joinFail (st : Srv) (sid : String) (outsSoFar : List Out) : Srv × List Out :=
  (st, outsSoFar ++ [.errorEvt sid "Failed to join room"])

/-- The tail of the `join` handler once user and room rows are resolved:
leave the previous room if any (`if (previousRoom)` is a truthiness test, so
a hypothetical room id 0 would be skipped; SERIAL ids start at 1), join the
new room, install the Session, then load history (gateway call `k`) and the
room directory (gateway call `k+1`). -/
def joinWithRoom (st : Srv) (sid : String) (user : User) (room : Room)
    (failAt : Option Nat) (k : Nat) : Srv × List Out :=
  let previousRoom := (mlookup st.activeUsers sid).map Session.roomId
  let mem1 := match previousRoom with
    | some rid => if rid = 0 then st.membership else socketLeave st.membership sid rid
    | none => st.membership
  let st2 := { st with
    membership := socketJoin mem1 sid room.id
    activeUsers := mset st.activeUsers sid ⟨user.username, user.id, room.id, room.name⟩ }
  if failAt = some k then joinFail st2 sid []
  else
    let history := getMessagesByRoom st2.db room.id
    let outs1 := [Out.messages sid history,
                  Out.userJoined room.id sid user.username
                    (user.username ++ " joined the room")]
    if failAt = some (k + 1) then joinFail st2 sid outs1
    else (st2, outs1 ++ [.rooms (getAllRooms st2.db)])

/-- The middle of the `join` handler: resolve-or-create the room row.
Gateway call `k` is `getRoomByName`; call `k+1`, issued only when the room is
missing, is `createRoom`. -/
def joinWithUser (st : Srv) (sid : String) (user : User) (roomName : String)
    (failAt : Option Nat) (k : Nat) : Srv × List Out :=
  if failAt = some k then joinFail st sid []
  else match getRoomByName st.db roomName with
    | some room => joinWithRoom st sid user room failAt (k + 1)
    | none =>
      if failAt = some (k + 1) then joinFail st sid []
      else
        let (db1, room) := createRoom st.db roomName
        joinWithRoom { st with db := db1 } sid user room failAt (k + 2)

/-- The `socket.on('join', ...)` handler.  Gateway call 0 is
`getUserByUsername`; call 1, issued only when the user is missing, is
`createUser`. -/
def joinHandler (st : Srv) (sid : String) (username roomName : String)
    (failAt : Option Nat) : Srv × List Out :=
  if failAt = some 0 then joinFail st sid []
  else match getUserByUsername st.db username with
    | some user => joinWithUser st sid user roomName failAt 1
    | none =>
      if failAt = some 1 then joinFail st sid []
      else
        let (db1, user) := createUser st.db username
        joinWithUser { st with db := db1 } sid user roomName failAt 2

/-- The `socket.on('message', ...)` handler.  Gateway call 0 is
`saveMessage`, call 1 is the defensive `getUserByUsername` re-fetch.  When
the re-fetch returns no row, `user.username` throws a TypeError which the
catch block reports the same way as a gateway failure. -/
def messageHandler (st : Srv) (sid : String) (text : String)
    (failAt : Option Nat) : Srv × List Out :=
  match mlookup st.activeUsers sid with
  | none => (st, [.errorEvt sid "You must join a room first"])
  | some userData =>
    if failAt = some 0 then (st, [.errorEvt sid "Failed to send message"])
    else
      let (db1, saved) := saveMessage st.db userData.userId userData.roomId text
      let st1 := { st with db := db1 }
      if failAt = some 1 then (st1, [.errorEvt sid "Failed to send message"])
      else match getUserByUsername db1 userData.username with
        | none => (st1, [.errorEvt sid "Failed to send message"])
        | some user =>
          (st1, [.newMessage userData.roomId saved.id user.username saved.message
                   saved.createdAt])

/-- The `socket.on('disconnect', ...)` handler.  Socket.io itself removes a
disconnected socket from every broadcast group, so the membership entry is
dropped alongside the two table entries. -/
def disconnectHandler (st : Srv) (sid : String) : Srv × List Out :=
  let hadPlayer := (mlookup st.activePlayers sid).isSome
  let players1 := mdel st.activePlayers sid
  let outs1 := (if hadPlayer then [Out.playerDisconnected sid sid] else []) ++
    [Out.activePlayerCount players1.length]
  match mlookup st.activeUsers sid with
  | some userData =>
    ({ st with
        activePlayers := players1
        activeUsers := mdel st.activeUsers sid
        membership := mdel st.membership sid },
     outs1 ++ [.userLeft userData.roomId sid userData.username
                 (userData.username ++ " left the room")])
  | none =>
    ({ st with activePlayers := players1, membership := mdel st.membership sid },
     outs1)

/-- Inbound events, as classified by the socket.io dispatch. -/
inductive Event where
  | connect (sid : String)
  | playerProfile (sid : String) (username : JSValue)
  | playerUpdate (sid : String) (payload : JSValue)
  | join (sid : String) (username roomName : String) (failAt : Option Nat)
  | message (sid : String) (text : String) (failAt : Option Nat)
  | disconnect (sid : String)

/-- Dispatch one inbound event to its handler. -/
def step (genColor : String → String) (st : Srv) : Event → Srv × List Out
  | .connect sid => connectHandler st sid
  | .playerProfile sid username => playerProfileHandler genColor st sid username
  | .playerUpdate sid payload => playerUpdateHandler st sid payload
  | .join sid username roomName failAt => joinHandler st sid username roomName failAt
  | .message sid text failAt => messageHandler st sid text failAt
  | .disconnect sid => disconnectHandler st sid

/-- Run a sequence of inbound events, concatenating the emitted outputs. -/
def runTrace (genColor : String → String) (st : Srv) : List Event → Srv × List Out
  | [] => (st, [])
  | e :: es =>
    let r := step genColor st e
    let rest := runTrace genColor r.1 es
    (rest.1, r.2 ++ rest.2)

/-- The database right after `initDatabase()`: empty tables except the
default `general` room created by the bootstrap INSERT. -/
def initialDb : DbState :=
  { users := []
    rooms := [⟨1, "general", 0⟩]
    messages := []
    nextUserId := 1
    nextRoomId := 2
    nextMessageId := 1
    clock := 1 }

/-- The server state at startup: no connections yet. -/
def initialSrv : Srv :=
  { db := initialDb, activeUsers := [], activePlayers := [], membership := [] }

/-! ## Interleaving semantics of concurrent `message` handlers

The `message` handler is an async function whose suspension points are
exactly its two `await`ed gateway calls (`saveMessage`, then the
`getUserByUsername` re-fetch followed synchronously by the room broadcast).
Node runs the segments between suspension points atomically, but segments of
different handler invocations interleave in any order the gateway completions
dictate; src/server.js contains no per-room queue or lock.  A `MsgTask` is
one in-flight `message` handler that already passed the session check; a
schedule is the list of task indices in the order their next segments run. -/

structure MsgTask where
  sid : String
  userId : Nat
  roomId : Nat
  username : String
  text : String
deriving DecidableEq

/-- A task's runtime state: `saved` is filled by the first segment, `done`
is set by the second (which also emits the broadcast). -/
structure RunningTask where
  task : MsgTask
  saved : Option DbMessage
  done : Bool
deriving DecidableEq

/-- The shared state of a run: the gateway, the in-flight tasks in the order
their `message` events arrived, and the broadcasts emitted so far. -/
structure ChatRun where
  db : DbState
  tasks : List RunningTask
  log : List Out
deriving DecidableEq

/-- Run the next segment of task `i`: its `saveMessage` call if pending,
otherwise its user re-fetch plus `newMessage` broadcast. -/
def taskStep (cr : ChatRun) (i : Nat) : ChatRun :=
  match cr.tasks.get? i with
  | none => cr
  | some rt =>
    if rt.done then cr
    else match rt.saved with
      | none =>
        let r := saveMessage cr.db rt.task.userId rt.task.roomId rt.task.text
        { cr with db := r.1, tasks := cr.tasks.set i { rt with saved := some r.2 } }
      | some m =>
        match getUserByUsername cr.db rt.task.username with
        | some u =>
          { cr with
              tasks := cr.tasks.set i { rt with done := true }
              log := cr.log ++ [Out.newMessage rt.task.roomId m.id u.username
                m.message m.createdAt] }
        | none => { cr with tasks := cr.tasks.set i { rt with done := true } }

/-- Run the segments named by a schedule, in order. -/
def runChatSched (cr : ChatRun) (sched : List Nat) : ChatRun :=
  sched.foldl taskStep cr

/-- Fresh in-flight tasks for a list of arrived `message` events. -/
def mkRunning (ts : List MsgTask) : List RunningTask :=
  ts.map (fun t => ⟨t, none, false⟩)

/-- The serial schedule: both segments of task `start`, then both segments of
task `start+1`, and so on for `n` tasks — each handler runs to completion
before the next begins. -/
def serialSched (start : Nat) : Nat → List Nat
  | 0 => []
  | n + 1 => start :: start :: serialSched (start + 1) n

/-- Reference serial execution of `message` handlers: persist, re-fetch,
broadcast, one task at a time in arrival order. -/
def chatSerialRun (db : DbState) : List MsgTask → DbState × List Out
  | [] => (db, [])
  | t :: ts =>
    ((chatSerialRun (saveMessage db t.userId t.roomId t.text).1 ts).1,
     (match getUserByUsername (saveMessage db t.userId t.roomId t.text).1
         t.username with
       | some u =>
         [Out.newMessage t.roomId (saveMessage db t.userId t.roomId t.text).2.id
            u.username (saveMessage db t.userId t.roomId t.text).2.message
            (saveMessage db t.userId t.roomId t.text).2.createdAt]
       | none => []) ++
       (chatSerialRun (saveMessage db t.userId t.roomId t.text).1 ts).2)

/-- The texts of the `newMessage` broadcasts delivered to room `rid`, in
emission order. -/
def roomBroadcastTexts (log : List Out) (rid : Nat) : List String :=
  log.filterMap (fun o =>
    match o with
    | .newMessage r _ _ msg _ => if r = rid then some msg else none
    | _ => none)

/-- The texts of the `message` events for room `rid`, in arrival order. -/
def roomArrivalTexts (ts : List MsgTask) (rid : Nat) : List String :=
  (ts.filter (fun t => t.roomId = rid)).map MsgTask.text

/-! ## Derived state observations used by the claims -/

/-- The color currently stored in a connection's presence entry. -/
def colorOf (st : Srv) (sid : String) : Option String :=
  (mlookup st.activePlayers sid).bind Player.color

/-- The presence entry of a connection, with the empty entry as default (the
same default the handlers use for a missing key). -/
def playerOf (st : Srv) (sid : String) : Player :=
  (mlookup st.activePlayers sid).getD emptyPlayer

/-- Whether an event is the connect or disconnect of the given socket (the
two lifecycle events that create or destroy that socket's presence entry). -/
def isLifecycleOf (e : Event) (sid : String) : Bool :=
  match e with
  | .connect s => s = sid
  | .disconnect s => s = sid
  | _ => false

/-- Whether a sanitized vector still contains a NaN component. -/
def Vec3.hasNaN (v : Vec3) : Bool :=
  v.x = JSNum.nan || v.y = JSNum.nan || v.z = JSNum.nan

/-! ## Basic lemmas about the map operations -/

theorem mlookup_mset_self {α : Type} (m : List (String × α)) (k : String) (v : α) :
    mlookup (mset m k v) k = some v := by
  induction m with
  | nil => simp [mset, mlookup]
  | cons p t ih =>
    obtain ⟨k0, v0⟩ := p
    by_cases h : k0 = k
    · simp [mset, h, mlookup]
    · simpa [mset, h, mlookup] using ih

theorem mlookup_mset_ne {α : Type} (m : List (String × α)) (k k' : String) (v : α)
    (h : k' ≠ k) : mlookup (mset m k v) k' = mlookup m k' := by
  induction m with
  | nil => simp [mset, mlookup, Ne.symm h]
  | cons p t ih =>
    obtain ⟨k0, v0⟩ := p
    by_cases hp : k0 = k
    · subst hp
      simp [mset, mlookup, Ne.symm h]
    · simp only [mset, if_neg hp, mlookup]
      by_cases hk' : k0 = k'
      · simp [hk']
      · simp [hk', ih]

theorem mlookup_mdel_ne {α : Type} (m : List (String × α)) (k k' : String)
    (h : k' ≠ k) : mlookup (mdel m k) k' = mlookup m k' := by
  induction m with
  | nil => simp [mdel]
  | cons p t ih =>
    obtain ⟨k0, v0⟩ := p
    by_cases hp : k0 = k
    · subst hp
      simp [mdel, mlookup, Ne.symm h]
    · simp only [mdel, if_neg hp, mlookup]
      by_cases hk' : k0 = k'
      · simp [hk']
      · simp [hk', ih]

/-! ## Lemmas about UTF-16 truncation -/

theorem utf16Len_pos (c : Char) : 0 < utf16Len c := by
  unfold utf16Len
  split <;> omega

theorem utf16Length_take (n : Nat) (l : List Char) :
    utf16Length (utf16Take n l) ≤ n := by
  induction l generalizing n with
  | nil => simp [utf16Take, utf16Length]
  | cons c cs ih =>
    simp only [utf16Take]
    split
    · next h =>
      have := ih (n - utf16Len c)
      simp only [utf16Length, List.map_cons, List.sum_cons] at *
      omega
    · simp [utf16Length]

theorem utf16Take_eats_front (n : Nat) (l : List Char) :
    ∃ rest, l = utf16Take n l ++ rest := by
  induction l generalizing n with
  | nil => exact ⟨[], rfl⟩
  | cons c cs ih =>
    simp only [utf16Take]
    split
    · obtain ⟨r, hr⟩ := ih (n - utf16Len c)
      exact ⟨r, by rw [List.cons_append, ← hr]⟩
    · exact ⟨c :: cs, rfl⟩

/-! ## Claim C10 -/

/-- C10: for every profile event, the stored and acknowledged display name is
the input username trimmed of surrounding whitespace and truncated to at most
20 characters (UTF-16 code units): the acknowledgment, the broadcast and the
stored presence entry all carry `trim` followed by `slice(0, 20)` of the
input, which is a front segment of the trimmed input of at most 20 units.  An
input that is not a string, or is empty after trimming, is treated as an
empty name and rejected with an error acknowledgment to the requester,
leaving the Presence Table unchanged. -/
theorem claim_C10_profile_name_rules (genColor : String → String) (st : Srv)
    (sid : String) (u : JSValue) :
    (∀ s : String, u = JSValue.jstr s → profileName u ≠ "" →
      ∃ color : String,
        (playerProfileHandler genColor st sid u).2 =
          [Out.playerProfileAck sid sid (jsSlice20 (jsTrim s)) color,
           Out.playerProfileUpdated sid sid (jsSlice20 (jsTrim s)) color] ∧
        (playerOf (playerProfileHandler genColor st sid u).1 sid).username =
          some (jsSlice20 (jsTrim s)) ∧
        utf16Length (jsSlice20 (jsTrim s)).toList ≤ 20 ∧
        (∃ rest, (jsTrim s).toList = (jsSlice20 (jsTrim s)).toList ++ rest)) ∧
    (profileName u = "" →
      playerProfileHandler genColor st sid u =
        (st, [Out.playerProfileAckError sid "Name is required"])) ∧
    ((∀ s : String, u ≠ JSValue.jstr s) → profileName u = "") := by
  refine ⟨?_, ?_, ?_⟩
  · intro s hs hne
    subst hs
    have hpn : profileName (JSValue.jstr s) = jsSlice20 (jsTrim s) := rfl
    rw [hpn] at hne
    unfold playerProfileHandler
    rw [hpn, if_neg hne]
    refine ⟨_, rfl, ?_, ?_, ?_⟩
    · simp [playerOf, mlookup_mset_self]
    · exact utf16Length_take 20 (jsTrim s).toList
    · exact utf16Take_eats_front 20 (jsTrim s).toList
  · intro h
    unfold playerProfileHandler
    rw [if_pos h]
  · intro h
    cases u with
    | jstr s => exact absurd rfl (h s)
    | _ => rfl

/-! ## Claim C8 -/

/-- C8: a profile event merges into the connection's existing PresenceState,
leaving any previously-set position and rotation unchanged; a positionUpdate
event merges the sanitized position and rotation, leaving displayName and
color unchanged.  (Both halves hold unconditionally: the rejection branches
leave the state untouched.) -/
theorem claim_C8_merge_frames (genColor : String → String) (st : Srv)
    (sid : String) (u payload : JSValue) :
    ((playerOf (playerProfileHandler genColor st sid u).1 sid).position =
        (playerOf st sid).position ∧
      (playerOf (playerProfileHandler genColor st sid u).1 sid).rotation =
        (playerOf st sid).rotation) ∧
    ((playerOf (playerUpdateHandler st sid payload).1 sid).username =
        (playerOf st sid).username ∧
      (playerOf (playerUpdateHandler st sid payload).1 sid).color =
        (playerOf st sid).color) := by
  constructor
  · by_cases h : profileName u = ""
    · unfold playerProfileHandler
      rw [if_pos h]
      exact ⟨rfl, rfl⟩
    · unfold playerProfileHandler
      rw [if_neg h]
      constructor <;> simp [playerOf, mlookup_mset_self]
  · by_cases h : (!payload.truthy || !(payload.getField "position").truthy ||
        !(payload.getField "rotation").truthy) = true
    · unfold playerUpdateHandler
      rw [if_pos h]
      exact ⟨rfl, rfl⟩
    · unfold playerUpdateHandler
      rw [if_neg h]
      constructor <;> simp [playerOf, mlookup_mset_self]

/-! ## Claim C5 -/

theorem orZero_ne_nan (n : JSNum) : n.orZero ≠ JSNum.nan := by
  unfold JSNum.orZero
  split
  · next h =>
    intro hn
    rw [hn] at h
    exact absurd h (by simp [JSNum.truthy])
  · simp

/-- C5 (amended): a positionUpdate is silently ignored (no state change, no
broadcast, no error) exactly when the payload, its position field or its
rotation field is falsy — absent, null, false, 0, NaN or the empty string —
rather than only when absent; otherwise each of the six numeric subfields is
coerced with 0 substituted for any non-numeric or missing value (the
sanitized values are never NaN), the sanitized update is broadcast to all
connections except the sender, and no event is addressed to the sender. -/
theorem claim_C5_position_update_behavior (st : Srv) (sid : String)
    (payload : JSValue) :
    (playerUpdateHandler st sid payload = (st, []) ↔
      (payload.truthy = false ∨ (payload.getField "position").truthy = false ∨
        (payload.getField "rotation").truthy = false)) ∧
    (payload.truthy = true → (payload.getField "position").truthy = true →
      (payload.getField "rotation").truthy = true →
      (playerUpdateHandler st sid payload).2 =
        [Out.playerUpdated sid sid (sanitizeVec (payload.getField "position"))
          (sanitizeVec (payload.getField "rotation")) (playerOf st sid).username
          (playerOf st sid).color] ∧
      (playerOf (playerUpdateHandler st sid payload).1 sid).position =
        some (sanitizeVec (payload.getField "position")) ∧
      (playerOf (playerUpdateHandler st sid payload).1 sid).rotation =
        some (sanitizeVec (payload.getField "rotation"))) ∧
    (∀ v : JSValue, Vec3.hasNaN (sanitizeVec v) = false) ∧
    (∀ o ∈ (playerUpdateHandler st sid payload).2, o.directTarget ≠ some sid) := by
  have hnan : ∀ v : JSValue, Vec3.hasNaN (sanitizeVec v) = false := by
    intro v
    simp only [Vec3.hasNaN, sanitizeVec, Bool.or_eq_false_iff, decide_eq_false_iff_not]
    exact ⟨⟨orZero_ne_nan _, orZero_ne_nan _⟩, orZero_ne_nan _⟩
  by_cases h1 : payload.truthy <;>
    by_cases h2 : (payload.getField "position").truthy <;>
      by_cases h3 : (payload.getField "rotation").truthy <;>
        simp only [playerUpdateHandler, h1, h2, h3, Bool.not_true, Bool.not_false,
          Bool.false_or, Bool.true_or, Bool.or_true, Bool.or_false, if_true, if_false,
          Bool.or_self] <;>
      refine ⟨?_, ?_, hnan, ?_⟩ <;>
      simp_all [playerOf, mlookup_mset_self, Out.directTarget]

/-- C5 counterexample state: one connection `c1` just accepted. -/
def c5st : Srv := (connectHandler initialSrv "c1").1

/-- C5 counterexample payload: `position` is the number 0 — present but
falsy — and `rotation` is a fully numeric object. -/
def c5payload : JSValue :=
  .jobj [("position", .jnum (.val 0)),
         ("rotation", .jobj [("x", .jnum (.val 1)), ("y", .jnum (.val 1)),
            ("z", .jnum (.val 1))])]

/-- C5 counterexample: a payload whose position and rotation fields are both
present is nevertheless silently ignored, refuting that updates are ignored
exactly when position or rotation is absent: the code tests truthiness, and
a present `position: 0` is falsy. -/
theorem claim_C5_counterexample :
    JSValue.hasField c5payload "position" = true ∧
    JSValue.hasField c5payload "rotation" = true ∧
    playerUpdateHandler c5st "c1" c5payload = (c5st, []) := by
  decide

/-! ## Claim C4 -/

/-- C4 payload: `position` is `{x: "abc"}` (non-numeric x, y and z absent)
and `rotation` is `{x: 1, y: 1, z: 1}`. -/
def c4payload : JSValue :=
  .jobj [("position", .jobj [("x", .jstr "abc")]),
         ("rotation", .jobj [("x", .jnum (.val 1)), ("y", .jnum (.val 1)),
            ("z", .jnum (.val 1))])]

/-- C4 counterexample state: one connection `c4a` just accepted. -/
def c4st : Srv := (connectHandler initialSrv "c4a").1

/-- C4 counterexample: the update with a non-numeric position x is NOT
dropped — the Presence entry changes and a positionChanged broadcast is
emitted — because `{x:"abc"}` is a truthy object and the guard only checks
truthiness of the position and rotation fields. -/
theorem claim_C4_counterexample :
    playerUpdateHandler c4st "c4a" c4payload ≠ (c4st, []) ∧
    (playerUpdateHandler c4st "c4a" c4payload).2 =
      [Out.playerUpdated "c4a" "c4a" ⟨.val 0, .val 0, .val 0⟩
        ⟨.val 1, .val 1, .val 1⟩ none none] ∧
    (playerOf (playerUpdateHandler c4st "c4a" c4payload).1 "c4a").position =
      some ⟨.val 0, .val 0, .val 0⟩ := by
  decide

/-- C4 (amended): from any state, a positionUpdate whose payload has position
`{x:"abc"}` (non-numeric x, y and z absent) and rotation `{x:1,y:1,z:1}` is
processed, not dropped: the non-numeric and missing position components are
coerced to 0, the Presence entry is updated to position (0,0,0) and rotation
(1,1,1), and a positionChanged broadcast is emitted to all connections
except the sender. -/
theorem claim_C4_amended_processed (st : Srv) (sid : String) :
    playerUpdateHandler st sid c4payload =
      ({ st with activePlayers := mset st.activePlayers sid ⟨some ⟨.val 0, .val 0, .val 0⟩, some ⟨.val 1, .val 1, .val 1⟩, (playerOf st sid).username, (playerOf st sid).color⟩ },
       [Out.playerUpdated sid sid ⟨.val 0, .val 0, .val 0⟩
          ⟨.val 1, .val 1, .val 1⟩ (playerOf st sid).username
          (playerOf st sid).color]) := by
  have hpos : sanitizeVec (JSValue.getField c4payload "position") =
      ⟨.val 0, .val 0, .val 0⟩ := by decide
  have hrot : sanitizeVec (JSValue.getField c4payload "rotation") =
      ⟨.val 1, .val 1, .val 1⟩ := by decide
  unfold playerUpdateHandler
  rw [if_neg (by decide)]
  rw [hpos, hrot]
  rfl

/-- C10 witness: the profile name "  alice  " trims to "alice" and is
acknowledged, broadcast and stored as such. -/
theorem claim_C10_witness :
    profileName (JSValue.jstr "  alice  ") ≠ "" ∧
    (∃ color : String,
      (playerProfileHandler (fun _ => "#aabb01") initialSrv "w10"
          (JSValue.jstr "  alice  ")).2 =
        [Out.playerProfileAck "w10" "w10" (jsSlice20 (jsTrim "  alice  ")) color,
         Out.playerProfileUpdated "w10" "w10" (jsSlice20 (jsTrim "  alice  ")) color] ∧
      (playerOf (playerProfileHandler (fun _ => "#aabb01") initialSrv "w10"
          (JSValue.jstr "  alice  ")).1 "w10").username =
        some (jsSlice20 (jsTrim "  alice  ")) ∧
      utf16Length (jsSlice20 (jsTrim "  alice  ")).toList ≤ 20 ∧
      (∃ rest, (jsTrim "  alice  ").toList =
        (jsSlice20 (jsTrim "  alice  ")).toList ++ rest)) :=
  ⟨by decide,
   (claim_C10_profile_name_rules (fun _ => "#aabb01") initialSrv "w10"
     (JSValue.jstr "  alice  ")).1 "  alice  " rfl (by decide)⟩

/-- C5 witness payload: partially specified but truthy position and
rotation objects. -/
def w5payload : JSValue :=
  .jobj [("position", .jobj [("x", .jnum (.val 2)), ("y", .jstr "7")]),
         ("rotation", .jobj [("z", .jnum (.val 3))])]

/-- C5 witness: a truthy payload is sanitized, stored and broadcast. -/
theorem claim_C5_witness :
    JSValue.truthy w5payload = true ∧
    ((playerUpdateHandler initialSrv "w5" w5payload).2 =
      [Out.playerUpdated "w5" "w5" (sanitizeVec (w5payload.getField "position"))
        (sanitizeVec (w5payload.getField "rotation"))
        (playerOf initialSrv "w5").username (playerOf initialSrv "w5").color] ∧
     (playerOf (playerUpdateHandler initialSrv "w5" w5payload).1 "w5").position =
       some (sanitizeVec (w5payload.getField "position")) ∧
     (playerOf (playerUpdateHandler initialSrv "w5" w5payload).1 "w5").rotation =
       some (sanitizeVec (w5payload.getField "rotation"))) :=
  ⟨by decide,
   (claim_C5_position_update_behavior initialSrv "w5" w5payload).2.1
     (by decide) (by decide) (by decide)⟩

/-! ## Claim C6 -/

/-- C6 (amended): when a connection that has a presence entry (which every
connection has from the moment of connect, profile or not) and a Session
disconnects, `presenceRemoved` (wire event `playerDisconnected`) IS broadcast
to the other connections, and `userLeftRoom` (wire event `userLeft`) IS
broadcast to the remaining members of its room. -/
theorem claim_C6_disconnect_broadcasts (st : Srv) (sid : String) (p : Player)
    (s : Session) (hp : mlookup st.activePlayers sid = some p)
    (hs : mlookup st.activeUsers sid = some s) :
    disconnectHandler st sid =
      ({ st with
          activePlayers := mdel st.activePlayers sid
          activeUsers := mdel st.activeUsers sid
          membership := mdel st.membership sid },
       [Out.playerDisconnected sid sid,
        Out.activePlayerCount (mdel st.activePlayers sid).length,
        Out.userLeft s.roomId sid s.username (s.username ++ " left the room")]) := by
  unfold disconnectHandler
  rw [hp, hs]
  rfl

/-- C6 deterministic color stand-in used for the concrete traces. -/
def c6genColor : String → String := fun _ => "#333333"

/-- C6 scenario trace: two connections, both join "general" (room id 1),
`c1` never sends a profile event, then `c1` disconnects. -/
def c6events : List Event :=
  [.connect "c1", .connect "c2", .join "c1" "alice" "general" none,
   .join "c2" "bob" "general" none, .disconnect "c1"]

/-- C6 counterexample: in the scenario, the presence-removal broadcast
`playerDisconnected` IS emitted (refuting the claim that `presenceRemoved`
is not broadcast), and `userLeft` is emitted to the room as the claim's
second half states. -/
theorem claim_C6_counterexample :
    Out.playerDisconnected "c1" "c1" ∈ (runTrace c6genColor initialSrv c6events).2 ∧
    Out.userLeft 1 "c1" "alice" "alice left the room" ∈
      (runTrace c6genColor initialSrv c6events).2 := by
  decide

/-- C6 witness state: both connections joined "general", before the
disconnect. -/
def c6st : Srv :=
  (runTrace c6genColor initialSrv [.connect "c1", .connect "c2",
    .join "c1" "alice" "general" none, .join "c2" "bob" "general" none]).1

/-- C6 witness: the amended theorem applied to the scenario state. -/
theorem claim_C6_witness :
    disconnectHandler c6st "c1" =
      ({ c6st with
          activePlayers := mdel c6st.activePlayers "c1"
          activeUsers := mdel c6st.activeUsers "c1"
          membership := mdel c6st.membership "c1" },
       [Out.playerDisconnected "c1" "c1",
        Out.activePlayerCount (mdel c6st.activePlayers "c1").length,
        Out.userLeft 1 "c1" "alice" ("alice" ++ " left the room")]) :=
  claim_C6_disconnect_broadcasts c6st "c1" emptyPlayer ⟨"alice", 1, 1, "general"⟩
    (by decide) (by decide)

/-! ## Claim C1 -/

theorem joinWithRoom_success_state (st : Srv) (sid : String) (user : User)
    (room : Room) (k : Nat) (s : Session)
    (hs : mlookup st.activeUsers sid = some s) (h0 : s.roomId ≠ 0)
    (hmem : roomsOfSid st sid = [s.roomId]) :
    mlookup (joinWithRoom st sid user room none k).1.activeUsers sid =
      some ⟨user.username, user.id, room.id, room.name⟩ ∧
    roomsOfSid (joinWithRoom st sid user room none k).1 sid = [room.id] := by
  have hm : (mlookup st.membership sid).getD [] = [s.roomId] := hmem
  constructor
  · simp [joinWithRoom, hs, h0, joinFail, mlookup_mset_self]
  · simp [joinWithRoom, hs, h0, joinFail, roomsOfSid, socketJoin, socketLeave, hm,
      mlookup_mset_self]

/-- C1: at most one Session per connection is structural (the Session Table
maps each socket id to a single Session); moreover a successful join while a
Session for room A exists removes the connection from A's broadcast group and
installs the new Session, so afterwards the connection's broadcast groups are
exactly the new room's and the connection is no longer a member of A
(whenever A is a different room). -/
theorem isMember_of_roomsOf {st : Srv} {sid : String} {a b : Nat}
    (h : roomsOfSid st sid = [b]) (hne : a ≠ b) : isMember st sid a = false := by
  simp [isMember, h, hne]

theorem joinWithUser_success_state (st : Srv) (sid : String) (user : User)
    (roomName : String) (k : Nat) (s : Session)
    (hs : mlookup st.activeUsers sid = some s) (h0 : s.roomId ≠ 0)
    (hmem : roomsOfSid st sid = [s.roomId]) :
    ∃ room : Room,
      mlookup (joinWithUser st sid user roomName none k).1.activeUsers sid =
        some ⟨user.username, user.id, room.id, room.name⟩ ∧
      roomsOfSid (joinWithUser st sid user roomName none k).1 sid = [room.id] := by
  unfold joinWithUser
  cases hr : getRoomByName st.db roomName with
  | some room =>
    exact ⟨room, joinWithRoom_success_state st sid user room (k + 1) s hs h0 hmem⟩
  | none =>
    cases hcr : createRoom st.db roomName with
    | mk db1 room =>
      exact ⟨room, joinWithRoom_success_state { st with db := db1 } sid user room
        (k + 2) s hs h0 hmem⟩

/-- C1: at most one Session per connection is structural (the Session Table
maps each socket id to a single Session); moreover a successful join while a
Session for room A exists removes the connection from A's broadcast group and
installs the new Session, so afterwards the connection's broadcast groups are
exactly the new room's and the connection is no longer a member of A
(whenever A is a different room). -/
theorem claim_C1_single_session (st : Srv) (sid username roomName : String)
    (s : Session) (hs : mlookup st.activeUsers sid = some s) (h0 : s.roomId ≠ 0)
    (hmem : roomsOfSid st sid = [s.roomId]) :
    ∃ user : User, ∃ room : Room,
      mlookup (joinHandler st sid username roomName none).1.activeUsers sid =
        some ⟨user.username, user.id, room.id, room.name⟩ ∧
      roomsOfSid (joinHandler st sid username roomName none).1 sid = [room.id] ∧
      (s.roomId ≠ room.id →
        isMember (joinHandler st sid username roomName none).1 sid s.roomId = false) := by
  unfold joinHandler
  cases hu : getUserByUsername st.db username with
  | some user =>
    obtain ⟨room, h1, h2⟩ := joinWithUser_success_state st sid user roomName 1 s hs h0 hmem
    exact ⟨user, room, h1, h2, fun hne => isMember_of_roomsOf h2 hne⟩
  | none =>
    cases hcu : createUser st.db username with
    | mk db1 user =>
      obtain ⟨room, h1, h2⟩ := joinWithUser_success_state { st with db := db1 } sid
        user roomName 2 s hs h0 hmem
      exact ⟨user, room, h1, h2, fun hne => isMember_of_roomsOf h2 hne⟩

/-- C1 witness state: `c1` holds a Session for room 1 ("general") and is a
member of exactly that broadcast group; the db also has room "dev" (id 2). -/
def c1st : Srv :=
  { db := { users := [⟨1, "alice", 1⟩], rooms := [⟨1, "general", 0⟩, ⟨2, "dev", 1⟩],
            messages := [], nextUserId := 2, nextRoomId := 3, nextMessageId := 1,
            clock := 2 }
    activeUsers := [("c1", ⟨"alice", 1, 1, "general"⟩)]
    activePlayers := [("c1", emptyPlayer)]
    membership := [("c1", [1])] }

/-- C1 witness: joining "dev" from "general" leaves exactly one membership
and removes the old one. -/
theorem claim_C1_witness :
    ∃ user : User, ∃ room : Room,
      mlookup (joinHandler c1st "c1" "alice" "dev" none).1.activeUsers "c1" =
        some ⟨user.username, user.id, room.id, room.name⟩ ∧
      roomsOfSid (joinHandler c1st "c1" "alice" "dev" none).1 "c1" = [room.id] ∧
      ((⟨"alice", 1, 1, "general"⟩ : Session).roomId ≠ room.id →
        isMember (joinHandler c1st "c1" "alice" "dev" none).1 "c1"
          (⟨"alice", 1, 1, "general"⟩ : Session).roomId = false) :=
  claim_C1_single_session c1st "c1" "alice" "dev" ⟨"alice", 1, 1, "general"⟩
    (by decide) (by decide) (by decide)

/-! ## Claim C3 -/

/-- The number of gateway calls the join handler issues before it mutates the
Session Table and the broadcast groups: user resolution (1 call if the user
row exists, else 2) followed by room resolution (1 call if the room row
exists, else 2).  `createUser` never changes the rooms table, so the room
branch is decided by the original database. -/
def joinResolutionCalls (db : DbState) (username roomName : String) : Nat :=
  (if (getUserByUsername db username).isSome then 1 else 2) +
  (if (getRoomByName db roomName).isSome then 1 else 2)

theorem getRoomByName_createUser (db : DbState) (u r : String) :
    getRoomByName (createUser db u).1 r = getRoomByName db r := by
  unfold createUser
  split <;> rfl

/-- C3 (amended): if a gateway call made during user/room resolution — before
the join handler touches the Session Table or the broadcast groups — fails,
the error is reported to the requester and the in-memory state (Session
Table, Presence Table, room groups) is unchanged.  The gateway calls issued
after the mutation (history load, room list) are outside this guarantee, as
the counterexample shows. -/
theorem claim_C3_pre_mutation_rollback (st : Srv) (sid username roomName : String)
    (k : Nat) (hk : k < joinResolutionCalls st.db username roomName) :
    (joinHandler st sid username roomName (some k)).1.activeUsers = st.activeUsers ∧
    (joinHandler st sid username roomName (some k)).1.activePlayers = st.activePlayers ∧
    (joinHandler st sid username roomName (some k)).1.membership = st.membership ∧
    (joinHandler st sid username roomName (some k)).2 =
      [Out.errorEvt sid "Failed to join room"] := by
  unfold joinResolutionCalls at hk
  unfold joinHandler
  cases hu : getUserByUsername st.db username with
  | some user =>
    simp only [hu, Option.isSome_some] at hk
    cases hr : getRoomByName st.db roomName with
    | some room =>
      simp only [hr, Option.isSome_some] at hk
      norm_num at hk
      interval_cases k
      · refine ⟨?_, ?_, ?_, ?_⟩ <;> simp [joinWithUser, joinFail, hr]
      · refine ⟨?_, ?_, ?_, ?_⟩ <;> simp [joinWithUser, joinFail, hr]
    | none =>
      simp only [hr, Option.isSome_none] at hk
      norm_num at hk
      interval_cases k
      · refine ⟨?_, ?_, ?_, ?_⟩ <;> simp [joinWithUser, joinFail, hr]
      · refine ⟨?_, ?_, ?_, ?_⟩ <;> simp [joinWithUser, joinFail, hr]
      · refine ⟨?_, ?_, ?_, ?_⟩ <;> simp [joinWithUser, joinFail, hr]
  | none =>
    simp only [hu, Option.isSome_none] at hk
    cases hcu : createUser st.db username with
    | mk db1 user =>
      have hrooms : getRoomByName db1 roomName = getRoomByName st.db roomName := by
        have h' := getRoomByName_createUser st.db username roomName
        rw [hcu] at h'
        exact h'
      cases hr : getRoomByName st.db roomName with
      | some room =>
        simp only [hr, Option.isSome_some] at hk
        norm_num at hk
        rw [hr] at hrooms
        interval_cases k
        · refine ⟨?_, ?_, ?_, ?_⟩ <;> simp [joinWithUser, joinFail, hrooms]
        · refine ⟨?_, ?_, ?_, ?_⟩ <;> simp [joinWithUser, joinFail, hrooms]
        · refine ⟨?_, ?_, ?_, ?_⟩ <;> simp [joinWithUser, joinFail, hrooms]
      | none =>
        simp only [hr, Option.isSome_none] at hk
        norm_num at hk
        rw [hr] at hrooms
        interval_cases k
        · refine ⟨?_, ?_, ?_, ?_⟩ <;> simp [joinWithUser, joinFail, hrooms]
        · refine ⟨?_, ?_, ?_, ?_⟩ <;> simp [joinWithUser, joinFail, hrooms]
        · refine ⟨?_, ?_, ?_, ?_⟩ <;> simp [joinWithUser, joinFail, hrooms]
        · refine ⟨?_, ?_, ?_, ?_⟩ <;> simp [joinWithUser, joinFail, hrooms]

/-- C3 counterexample state: `c1` connected with no Session; the db has user
"alice" and room "general". -/
def c3st : Srv :=
  { db := { users := [⟨1, "alice", 1⟩], rooms := [⟨1, "general", 0⟩],
            messages := [], nextUserId := 2, nextRoomId := 2, nextMessageId := 1,
            clock := 2 }
    activeUsers := []
    activePlayers := [("c1", emptyPlayer)]
    membership := [] }

/-- C3 counterexample: joining "dev" with a failure at the history-load
gateway call (dynamic call 3: getUser, getRoom, createRoom succeed, then
getMessagesByRoom fails) reports the error yet leaves the freshly installed
Session and group membership — the in-memory state is NOT unchanged from
before the join. -/
theorem claim_C3_counterexample :
    (joinHandler c3st "c1" "alice" "dev" (some 3)).2 =
      [Out.errorEvt "c1" "Failed to join room"] ∧
    (joinHandler c3st "c1" "alice" "dev" (some 3)).1.activeUsers =
      [("c1", ⟨"alice", 1, 2, "dev"⟩)] ∧
    (joinHandler c3st "c1" "alice" "dev" (some 3)).1.activeUsers ≠ c3st.activeUsers ∧
    roomsOfSid (joinHandler c3st "c1" "alice" "dev" (some 3)).1 "c1" = [2] := by
  decide

/-- C3 witness: a failure during room resolution (call 1: getUser succeeded,
getRoomByName fails) reports the error and leaves all in-memory state
unchanged. -/
theorem claim_C3_witness :
    (joinHandler c3st "c1" "alice" "dev" (some 1)).1.activeUsers = c3st.activeUsers ∧
    (joinHandler c3st "c1" "alice" "dev" (some 1)).1.activePlayers = c3st.activePlayers ∧
    (joinHandler c3st "c1" "alice" "dev" (some 1)).1.membership = c3st.membership ∧
    (joinHandler c3st "c1" "alice" "dev" (some 1)).2 =
      [Out.errorEvt "c1" "Failed to join room"] :=
  claim_C3_pre_mutation_rollback c3st "c1" "alice" "dev" 1 (by decide)

/-! ## Claim C9 -/

/-- The window described by the spec: the most recent messages of the room up
to `limit` of them — i.e. the last `limit` rows of the room's chronological
(oldest-first) message sequence — each joined with its author's username. -/
def specRecentWindow (db : DbState) (rid : Nat) (limit : Nat) :
    List (DbMessage × String) :=
  (roomJoinedRows db rid).drop ((roomJoinedRows db rid).length - limit)

theorem insertDescBy_all_lt {α : Type} (key : α → Nat) (x : α) (l : List α)
    (h : ∀ y ∈ l, key x < key y) : insertDescBy key x l = l ++ [x] := by
  induction l with
  | nil => rfl
  | cons y ys ih =>
    have hy := h y (List.mem_cons_self y ys)
    rw [insertDescBy, if_neg (by omega)]
    rw [ih (fun z hz => h z (List.mem_cons_of_mem y hz))]
    rfl

theorem chain_key_lt_all {α : Type} (key : α → Nat) (x : α) (xs : List α)
    (h : List.Chain (fun a b => key a < key b) x xs) : ∀ y ∈ xs, key x < key y := by
  induction xs generalizing x with
  | nil => intro y hy; cases hy
  | cons z zs ih =>
    rcases List.chain_cons.mp h with ⟨hxz, hz⟩
    intro y hy
    rcases List.mem_cons.mp hy with rfl | hy'
    · exact hxz
    · exact lt_trans hxz (ih z hz y hy')

theorem sortDescBy_of_ascending {α : Type} (key : α → Nat) (l : List α)
    (h : List.Chain' (fun a b => key a < key b) l) : sortDescBy key l = l.reverse := by
  induction l with
  | nil => rfl
  | cons x xs ih =>
    have hchain : List.Chain (fun a b => key a < key b) x xs := h
    have hstep : sortDescBy key (x :: xs) = insertDescBy key x (sortDescBy key xs) := rfl
    rw [hstep, ih h.tail]
    rw [insertDescBy_all_lt key x xs.reverse
      (fun y hy => chain_key_lt_all key x xs hchain y (List.mem_reverse.mp hy))]
    rw [List.reverse_cons]

/-- C9: for every room, the recent-messages query (which the join handler
invokes with the default limit 50 to deliver the room history) returns the
most recent messages up to `limit`, ordered oldest-first, each joined with
its author's username — i.e. exactly the last `limit` rows of the room's
chronological message sequence.  The hypothesis states that the room's rows
carry strictly increasing timestamps in insertion order, which the
`saveMessage` clock model guarantees. -/
theorem claim_C9_recent_history (db : DbState) (rid limit : Nat)
    (h : List.Chain' (fun a b => a.1.createdAt < b.1.createdAt)
      (roomJoinedRows db rid)) :
    getMessagesByRoom db rid limit = specRecentWindow db rid limit := by
  unfold getMessagesByRoom specRecentWindow
  rw [sortDescBy_of_ascending _ _ h]
  rw [← List.rtake_eq_reverse_take_reverse]
  rfl

/-- C9 witness database: three messages in room 1 by "alice". -/
def c9db : DbState :=
  { users := [⟨1, "alice", 0⟩], rooms := [⟨1, "general", 0⟩],
    messages := [⟨1, 1, 1, "m1", 1⟩, ⟨2, 1, 1, "m2", 2⟩, ⟨3, 1, 1, "m3", 3⟩],
    nextUserId := 2, nextRoomId := 2, nextMessageId := 4, clock := 4 }

/-- C9 witness: with limit 2 the query returns the two most recent messages
oldest-first, joined with the author's username. -/
theorem claim_C9_witness :
    getMessagesByRoom c9db 1 2 = specRecentWindow c9db 1 2 ∧
    specRecentWindow c9db 1 2 =
      [(⟨2, 1, 1, "m2", 2⟩, "alice"), (⟨3, 1, 1, "m3", 3⟩, "alice")] :=
  ⟨claim_C9_recent_history c9db 1 2 (by
    have hrows : roomJoinedRows c9db 1 =
        [(⟨1, 1, 1, "m1", 1⟩, "alice"), (⟨2, 1, 1, "m2", 2⟩, "alice"),
         (⟨3, 1, 1, "m3", 3⟩, "alice")] := by decide
    rw [hrows]
    norm_num [List.chain'_cons]), by decide⟩

/-! ## Claim C2 -/

theorem get_append_len {α : Type} (pre : List α) (l : List α) :
    (pre ++ l).get? pre.length = l.get? 0 := by
  induction pre with
  | nil => rfl
  | cons a t ih => simpa using ih

theorem set_append_len {α : Type} (pre : List α) (l : List α) (v : α) :
    (pre ++ l).set pre.length v = pre ++ l.set 0 v := by
  induction pre with
  | nil => rfl
  | cons a t ih => simpa using ih

theorem taskStep_save (db : DbState) (pre : List RunningTask) (t : MsgTask)
    (rest : List RunningTask) (log : List Out) :
    taskStep ⟨db, pre ++ ⟨t, none, false⟩ :: rest, log⟩ pre.length =
      ⟨(saveMessage db t.userId t.roomId t.text).1,
       pre ++ ⟨t, some (saveMessage db t.userId t.roomId t.text).2, false⟩ :: rest,
       log⟩ := by
  unfold taskStep
  rw [show (⟨db, pre ++ ⟨t, none, false⟩ :: rest, log⟩ : ChatRun).tasks.get?
        pre.length = some ⟨t, none, false⟩ from by
      simpa using get_append_len pre (⟨t, none, false⟩ :: rest)]
  dsimp only
  rw [show (⟨db, pre ++ ⟨t, none, false⟩ :: rest, log⟩ : ChatRun).tasks.set
        pre.length ⟨t, some (saveMessage db t.userId t.roomId t.text).2, false⟩ =
        pre ++ ⟨t, some (saveMessage db t.userId t.roomId t.text).2, false⟩ :: rest from by
      simpa using set_append_len pre (⟨t, none, false⟩ :: rest)
        ⟨t, some (saveMessage db t.userId t.roomId t.text).2, false⟩]
  rfl

theorem taskStep_broadcast (db : DbState) (pre : List RunningTask) (t : MsgTask)
    (m : DbMessage) (rest : List RunningTask) (log : List Out) (u : User)
    (hu : getUserByUsername db t.username = some u) :
    taskStep ⟨db, pre ++ ⟨t, some m, false⟩ :: rest, log⟩ pre.length =
      ⟨db, pre ++ ⟨t, some m, true⟩ :: rest,
       log ++ [Out.newMessage t.roomId m.id u.username m.message m.createdAt]⟩ := by
  unfold taskStep
  rw [show (⟨db, pre ++ ⟨t, some m, false⟩ :: rest, log⟩ : ChatRun).tasks.get?
        pre.length = some ⟨t, some m, false⟩ from by
      simpa using get_append_len pre (⟨t, some m, false⟩ :: rest)]
  dsimp only
  rw [hu]
  dsimp only
  rw [show (⟨db, pre ++ ⟨t, some m, false⟩ :: rest, log⟩ : ChatRun).tasks.set
        pre.length ⟨t, some m, true⟩ = pre ++ ⟨t, some m, true⟩ :: rest from by
      simpa using set_append_len pre (⟨t, some m, false⟩ :: rest) ⟨t, some m, true⟩]
  rfl

theorem runChatSched_serial (ts : List MsgTask) (pre : List RunningTask)
    (db : DbState) (log : List Out)
    (h : ∀ t ∈ ts, (getUserByUsername db t.username).isSome = true) :
    (runChatSched ⟨db, pre ++ mkRunning ts, log⟩
        (serialSched pre.length ts.length)).log =
      log ++ (chatSerialRun db ts).2 ∧
    (runChatSched ⟨db, pre ++ mkRunning ts, log⟩
        (serialSched pre.length ts.length)).db =
      (chatSerialRun db ts).1 := by
  induction ts generalizing pre db log with
  | nil => simp [runChatSched, serialSched, chatSerialRun, mkRunning]
  | cons t ts ih =>
    obtain ⟨u, hu⟩ := Option.isSome_iff_exists.mp (h t (List.mem_cons_self t ts))
    have hu1 : getUserByUsername (saveMessage db t.userId t.roomId t.text).1
        t.username = some u := hu
    have hsched : serialSched pre.length (t :: ts).length =
        pre.length :: pre.length :: serialSched (pre.length + 1) ts.length := rfl
    have hrun : runChatSched ⟨db, pre ++ mkRunning (t :: ts), log⟩
        (serialSched pre.length (t :: ts).length) =
        runChatSched (taskStep (taskStep ⟨db, pre ++ mkRunning (t :: ts), log⟩
          pre.length) pre.length) (serialSched (pre.length + 1) ts.length) := by
      rw [hsched]; rfl
    have hmk : pre ++ mkRunning (t :: ts) = pre ++ ⟨t, none, false⟩ :: mkRunning ts := rfl
    rw [hrun, hmk, taskStep_save db pre t (mkRunning ts) log,
      taskStep_broadcast _ pre t _ (mkRunning ts) log u hu1]
    have hpre : pre.length + 1 = (pre ++ [(⟨t, some (saveMessage db t.userId
        t.roomId t.text).2, true⟩ : RunningTask)]).length := by simp
    have happ : pre ++ (⟨t, some (saveMessage db t.userId t.roomId t.text).2,
        true⟩ : RunningTask) :: mkRunning ts =
        (pre ++ [⟨t, some (saveMessage db t.userId t.roomId t.text).2, true⟩]) ++
          mkRunning ts := by simp
    rw [hpre, happ]
    have h' : ∀ t' ∈ ts, (getUserByUsername
        (saveMessage db t.userId t.roomId t.text).1 t'.username).isSome = true :=
      fun t' ht' => h t' (List.mem_cons_of_mem t ht')
    obtain ⟨ih1, ih2⟩ := ih _ _ _ h'
    refine ⟨?_, ?_⟩
    · rw [ih1]
      have hser : chatSerialRun db (t :: ts) =
          ((chatSerialRun (saveMessage db t.userId t.roomId t.text).1 ts).1,
           [Out.newMessage t.roomId (saveMessage db t.userId t.roomId t.text).2.id
              u.username (saveMessage db t.userId t.roomId t.text).2.message
              (saveMessage db t.userId t.roomId t.text).2.createdAt] ++
             (chatSerialRun (saveMessage db t.userId t.roomId t.text).1 ts).2) := by
        simp only [chatSerialRun]
        rw [hu1]
      rw [hser]
      simp
    · rw [ih2]
      have hser : (chatSerialRun db (t :: ts)).1 =
          (chatSerialRun (saveMessage db t.userId t.roomId t.text).1 ts).1 := by
        simp only [chatSerialRun]
      rw [hser]

theorem chatSerialRun_texts (db : DbState) (ts : List MsgTask) (rid : Nat)
    (h : ∀ t ∈ ts, (getUserByUsername db t.username).isSome = true) :
    roomBroadcastTexts (chatSerialRun db ts).2 rid = roomArrivalTexts ts rid := by
  induction ts generalizing db with
  | nil => rfl
  | cons t ts ih =>
    obtain ⟨u, hu⟩ := Option.isSome_iff_exists.mp (h t (List.mem_cons_self t ts))
    have hu1 : getUserByUsername (saveMessage db t.userId t.roomId t.text).1
        t.username = some u := hu
    have h' : ∀ t' ∈ ts, (getUserByUsername
        (saveMessage db t.userId t.roomId t.text).1 t'.username).isSome = true :=
      fun t' ht' => h t' (List.mem_cons_of_mem t ht')
    have hser : (chatSerialRun db (t :: ts)).2 =
        [Out.newMessage t.roomId (saveMessage db t.userId t.roomId t.text).2.id
           u.username (saveMessage db t.userId t.roomId t.text).2.message
           (saveMessage db t.userId t.roomId t.text).2.createdAt] ++
          (chatSerialRun (saveMessage db t.userId t.roomId t.text).1 ts).2 := by
      simp only [chatSerialRun]
      rw [hu1]
    rw [hser]
    have hmsg : (saveMessage db t.userId t.roomId t.text).2.message = t.text := rfl
    by_cases hrid : t.roomId = rid
    · simp [roomBroadcastTexts, roomArrivalTexts, hrid, List.filterMap_append]
      exact ⟨hmsg, ih _ h'⟩
    · simp [roomBroadcastTexts, roomArrivalTexts, hrid, List.filterMap_append]
      exact ih _ h'

/-- C2 (amended): the Chat Coordinator contains no room-keyed critical
section: its two gateway calls are suspension points, and the broadcasts for
a room follow the order in which the handlers' second segments run, which
under concurrent submission need not be the arrival order (see the
counterexample).  Order-equivalence with arrival order does hold whenever the
same-room handlers happen to run serially — each handler's persist and
broadcast completing before the next handler starts. -/
theorem claim_C2_serial_order (db : DbState) (ts : List MsgTask) (rid : Nat)
    (h : ∀ t ∈ ts, (getUserByUsername db t.username).isSome = true) :
    roomBroadcastTexts (runChatSched ⟨db, mkRunning ts, []⟩
      (serialSched 0 ts.length)).log rid = roomArrivalTexts ts rid := by
  have hmain := (runChatSched_serial ts [] db [] h).1
  simp only [List.nil_append, List.length_nil] at hmain
  rw [hmain]
  exact chatSerialRun_texts db ts rid h

/-- C2 example database: two users and one room. -/
def c2db : DbState :=
  { users := [⟨1, "alice", 0⟩, ⟨2, "bob", 0⟩], rooms := [⟨1, "general", 0⟩],
    messages := [], nextUserId := 3, nextRoomId := 2, nextMessageId := 1,
    clock := 1 }

/-- C2 example in-flight messages: alice's message event arrives first,
bob's second, both for room 1. -/
def c2tasks : List MsgTask :=
  [⟨"c1", 1, 1, "alice", "hi from alice"⟩, ⟨"c2", 2, 1, "bob", "hi from bob"⟩]

/-- C2 counterexample: under the interleaved schedule [0,1,1,0] — both
handlers persist in arrival order, but bob's handler finishes its user
re-fetch and broadcast first — room 1's broadcasts are NOT order-equivalent
to arrival order, refuting the claimed per-room serial critical section. -/
theorem claim_C2_counterexample :
    roomBroadcastTexts (runChatSched ⟨c2db, mkRunning c2tasks, []⟩
      [0, 1, 1, 0]).log 1 = ["hi from bob", "hi from alice"] ∧
    roomArrivalTexts c2tasks 1 = ["hi from alice", "hi from bob"] ∧
    roomBroadcastTexts (runChatSched ⟨c2db, mkRunning c2tasks, []⟩
      [0, 1, 1, 0]).log 1 ≠ roomArrivalTexts c2tasks 1 := by
  decide

/-- C2 witness: under the serial schedule the same two messages broadcast in
arrival order. -/
theorem claim_C2_witness :
    roomBroadcastTexts (runChatSched ⟨c2db, mkRunning c2tasks, []⟩
      (serialSched 0 c2tasks.length)).log 1 = roomArrivalTexts c2tasks 1 :=
  claim_C2_serial_order c2db c2tasks 1 (by decide)

/-! ## Claim C7 -/

theorem joinWithRoom_activePlayers (st : Srv) (sid : String) (user : User)
    (room : Room) (failAt : Option Nat) (k : Nat) :
    (joinWithRoom st sid user room failAt k).1.activePlayers = st.activePlayers := by
  unfold joinWithRoom
  by_cases h1 : failAt = some k
  · rw [if_pos h1]
    all_goals rfl
  · rw [if_neg h1]
    by_cases h2 : failAt = some (k + 1)
    · rw [if_pos h2]
      all_goals rfl
    · rw [if_neg h2]
      all_goals rfl

theorem joinWithUser_activePlayers (st : Srv) (sid : String) (user : User)
    (roomName : String) (failAt : Option Nat) (k : Nat) :
    (joinWithUser st sid user roomName failAt k).1.activePlayers =
      st.activePlayers := by
  unfold joinWithUser
  by_cases h1 : failAt = some k
  · rw [if_pos h1]
    rfl
  · rw [if_neg h1]
    cases hr : getRoomByName st.db roomName with
    | some room => exact joinWithRoom_activePlayers st sid user room failAt (k + 1)
    | none =>
      dsimp only
      by_cases h2 : failAt = some (k + 1)
      · rw [if_pos h2]
        rfl
      · rw [if_neg h2]
        cases hcr : createRoom st.db roomName with
        | mk db1 room =>
          exact joinWithRoom_activePlayers { st with db := db1 } sid user room
            failAt (k + 2)

theorem joinHandler_activePlayers (st : Srv) (sid username roomName : String)
    (failAt : Option Nat) :
    (joinHandler st sid username roomName failAt).1.activePlayers =
      st.activePlayers := by
  unfold joinHandler
  by_cases h1 : failAt = some 0
  · rw [if_pos h1]
    rfl
  · rw [if_neg h1]
    cases hu : getUserByUsername st.db username with
    | some user => exact joinWithUser_activePlayers st sid user roomName failAt 1
    | none =>
      dsimp only
      by_cases h2 : failAt = some 1
      · rw [if_pos h2]
        rfl
      · rw [if_neg h2]
        cases hcu : createUser st.db username with
        | mk db1 user =>
          exact joinWithUser_activePlayers { st with db := db1 } sid user
            roomName failAt 2

theorem messageHandler_activePlayers (st : Srv) (sid text : String)
    (failAt : Option Nat) :
    (messageHandler st sid text failAt).1.activePlayers = st.activePlayers := by
  unfold messageHandler
  cases hud : mlookup st.activeUsers sid with
  | none => rfl
  | some userData =>
    dsimp only
    by_cases h0 : failAt = some 0
    · rw [if_pos h0]
    · rw [if_neg h0]
      by_cases h1 : failAt = some 1
      · rw [if_pos h1]
      · rw [if_neg h1]
        cases getUserByUsername (saveMessage st.db userData.userId
            userData.roomId text).1 userData.username <;> rfl

theorem disconnectHandler_activePlayers (st : Srv) (sid : String) :
    (disconnectHandler st sid).1.activePlayers = mdel st.activePlayers sid := by
  unfold disconnectHandler
  cases mlookup st.activeUsers sid <;> rfl

theorem colorOf_connect_ne (st : Srv) (s sid : String) (h : s ≠ sid) :
    colorOf (connectHandler st s).1 sid = colorOf st sid := by
  unfold connectHandler colorOf
  rw [mlookup_mset_ne st.activePlayers s sid emptyPlayer (Ne.symm h)]

theorem colorOf_profile_preserved (genColor : String → String) (st : Srv)
    (s sid : String) (u : JSValue) (c : String) (hc : colorOf st sid = some c)
    (hcne : c ≠ "") :
    colorOf (playerProfileHandler genColor st s u).1 sid = some c := by
  unfold playerProfileHandler
  by_cases hn : profileName u = ""
  · rw [if_pos hn]
    exact hc
  · rw [if_neg hn]
    by_cases hsid : s = sid
    · subst hsid
      cases hp : mlookup st.activePlayers s with
      | none => simp [colorOf, hp] at hc
      | some p =>
        have hpc : p.color = some c := by simpa [colorOf, hp] using hc
        simp only [colorOf, hp]
        rw [mlookup_mset_self]
        simp only [Option.getD_some, hpc]
        simp [hcne]
    · simp only [colorOf]
      rw [mlookup_mset_ne st.activePlayers s sid _ (Ne.symm hsid)]
      exact hc

theorem colorOf_update_preserved (st : Srv) (s sid : String) (payload : JSValue)
    (c : String) (hc : colorOf st sid = some c) :
    colorOf (playerUpdateHandler st s payload).1 sid = some c := by
  unfold playerUpdateHandler
  by_cases hg : (!payload.truthy || !(payload.getField "position").truthy ||
      !(payload.getField "rotation").truthy) = true
  · rw [if_pos hg]
    exact hc
  · rw [if_neg hg]
    by_cases hsid : s = sid
    · subst hsid
      cases hp : mlookup st.activePlayers s with
      | none => simp [colorOf, hp] at hc
      | some p =>
        have hpc : p.color = some c := by simpa [colorOf, hp] using hc
        simp only [colorOf, hp]
        rw [mlookup_mset_self]
        simpa using hpc
    · simp only [colorOf]
      rw [mlookup_mset_ne st.activePlayers s sid _ (Ne.symm hsid)]
      exact hc

theorem colorOf_disconnect_ne (st : Srv) (s sid : String) (h : s ≠ sid) :
    colorOf (disconnectHandler st s).1 sid = colorOf st sid := by
  unfold colorOf
  rw [disconnectHandler_activePlayers]
  rw [mlookup_mdel_ne st.activePlayers s sid (Ne.symm h)]

theorem colorOf_step_preserved (genColor : String → String) (st : Srv)
    (sid : String) (c : String) (e : Event)
    (he : isLifecycleOf e sid = false) (hc : colorOf st sid = some c)
    (hcne : c ≠ "") : colorOf (step genColor st e).1 sid = some c := by
  cases e with
  | connect s =>
    have hs : s ≠ sid := by simpa [isLifecycleOf] using he
    rw [show (step genColor st (Event.connect s)).1 = (connectHandler st s).1 from rfl,
      colorOf_connect_ne st s sid hs]
    exact hc
  | playerProfile s u => exact colorOf_profile_preserved genColor st s sid u c hc hcne
  | playerUpdate s payload => exact colorOf_update_preserved st s sid payload c hc
  | join s username roomName failAt =>
    show colorOf (joinHandler st s username roomName failAt).1 sid = some c
    unfold colorOf
    rw [joinHandler_activePlayers]
    exact hc
  | message s text failAt =>
    show colorOf (messageHandler st s text failAt).1 sid = some c
    unfold colorOf
    rw [messageHandler_activePlayers]
    exact hc
  | disconnect s =>
    have hs : s ≠ sid := by simpa [isLifecycleOf] using he
    rw [show (step genColor st (Event.disconnect s)).1 = (disconnectHandler st s).1
      from rfl, colorOf_disconnect_ne st s sid hs]
    exact hc

theorem colorOf_trace_preserved (genColor : String → String) (st : Srv)
    (sid : String) (c : String) (evs : List Event)
    (hevs : ∀ e ∈ evs, isLifecycleOf e sid = false)
    (hc : colorOf st sid = some c) (hcne : c ≠ "") :
    colorOf (runTrace genColor st evs).1 sid = some c := by
  induction evs generalizing st with
  | nil => exact hc
  | cons e es ih =>
    exact ih (step genColor st e).1
      (fun e' he' => hevs e' (List.mem_cons_of_mem e he'))
      (colorOf_step_preserved genColor st sid c e
        (hevs e (List.mem_cons_self e es)) hc hcne)

theorem profile_first_color (genColor : String → String) (st : Srv)
    (sid : String) (u : JSValue) (h0 : colorOf st sid = none)
    (hn : profileName u ≠ "") :
    (playerProfileHandler genColor st sid u).2 =
      [Out.playerProfileAck sid sid (profileName u)
         (genColor (sid ++ profileName u)),
       Out.playerProfileUpdated sid sid (profileName u)
         (genColor (sid ++ profileName u))] ∧
    colorOf (playerProfileHandler genColor st sid u).1 sid =
      some (genColor (sid ++ profileName u)) := by
  unfold playerProfileHandler
  rw [if_neg hn]
  cases hp : mlookup st.activePlayers sid with
  | none =>
    exact ⟨rfl, by simp [colorOf, mlookup_mset_self, emptyPlayer]⟩
  | some p =>
    have hpc : p.color = none := by simpa [colorOf, hp] using h0
    simp only [Option.getD_some]
    rw [hpc]
    exact ⟨rfl, by simp [colorOf, mlookup_mset_self]⟩

theorem profile_same_color (genColor : String → String) (st : Srv)
    (sid : String) (u : JSValue) (c : String) (hc : colorOf st sid = some c)
    (hcne : c ≠ "") (hn : profileName u ≠ "") :
    (playerProfileHandler genColor st sid u).2 =
      [Out.playerProfileAck sid sid (profileName u) c,
       Out.playerProfileUpdated sid sid (profileName u) c] := by
  unfold playerProfileHandler
  rw [if_neg hn]
  cases hp : mlookup st.activePlayers sid with
  | none => simp [colorOf, hp] at hc
  | some p =>
    have hpc : p.color = some c := by simpa [colorOf, hp] using hc
    simp only [Option.getD_some]
    rw [hpc]
    dsimp only
    rw [if_neg hcne]

/-- C7: a connection's color is assigned at most once.  From a state with no
color for the connection, the first successful profile event acknowledges and
broadcasts the color derived from the id-and-name string `sid ++ trimmedName`
(the argument the code hashes), and after any further events that are not the
connect or disconnect of this connection — renames, position updates, joins,
messages, other connections' traffic — a later profile event with a possibly
different name acknowledges and broadcasts that same color.  The hypotheses
ask that both profile names be non-empty (successful) and that the derived
color be a non-empty string, which `generateColorFromId` guarantees by always
returning a `#`-prefixed hex string. -/
theorem claim_C7_color_assigned_once (genColor : String → String) (st : Srv)
    (sid : String) (u1 u2 : JSValue) (evs : List Event)
    (h0 : colorOf st sid = none) (h1 : profileName u1 ≠ "")
    (h2 : profileName u2 ≠ "")
    (hg : genColor (sid ++ profileName u1) ≠ "")
    (hevs : ∀ e ∈ evs, isLifecycleOf e sid = false) :
    (playerProfileHandler genColor st sid u1).2 =
      [Out.playerProfileAck sid sid (profileName u1)
         (genColor (sid ++ profileName u1)),
       Out.playerProfileUpdated sid sid (profileName u1)
         (genColor (sid ++ profileName u1))] ∧
    (playerProfileHandler genColor
        (runTrace genColor (playerProfileHandler genColor st sid u1).1 evs).1
        sid u2).2 =
      [Out.playerProfileAck sid sid (profileName u2)
         (genColor (sid ++ profileName u1)),
       Out.playerProfileUpdated sid sid (profileName u2)
         (genColor (sid ++ profileName u1))] := by
  obtain ⟨ho1, hc1⟩ := profile_first_color genColor st sid u1 h0 h1
  have hc2 := colorOf_trace_preserved genColor
    (playerProfileHandler genColor st sid u1).1 sid
    (genColor (sid ++ profileName u1)) evs hevs hc1 hg
  exact ⟨ho1, profile_same_color genColor _ sid u2 _ hc2 hg h2⟩

/-- C7 witness color function: a fixed `#`-prefixed string. -/
def c7genColor : String → String := fun _ => "#123456"

/-- C7 witness: connection `c1` profiles as "alice", then after a rename to
"alice2" (with an intervening position update and another connection's
traffic) the acknowledged color is unchanged. -/
theorem claim_C7_witness :
    (playerProfileHandler c7genColor (connectHandler initialSrv "c1").1 "c1"
        (JSValue.jstr "alice")).2 =
      [Out.playerProfileAck "c1" "c1" (profileName (JSValue.jstr "alice"))
         (c7genColor ("c1" ++ profileName (JSValue.jstr "alice"))),
       Out.playerProfileUpdated "c1" "c1" (profileName (JSValue.jstr "alice"))
         (c7genColor ("c1" ++ profileName (JSValue.jstr "alice")))] ∧
    (playerProfileHandler c7genColor
        (runTrace c7genColor (playerProfileHandler c7genColor
            (connectHandler initialSrv "c1").1 "c1" (JSValue.jstr "alice")).1
          [Event.connect "c2", Event.join "c1" "alice" "general" none]).1
        "c1" (JSValue.jstr "alice2")).2 =
      [Out.playerProfileAck "c1" "c1" (profileName (JSValue.jstr "alice2"))
         (c7genColor ("c1" ++ profileName (JSValue.jstr "alice"))),
       Out.playerProfileUpdated "c1" "c1" (profileName (JSValue.jstr "alice2"))
         (c7genColor ("c1" ++ profileName (JSValue.jstr "alice")))] :=
  claim_C7_color_assigned_once c7genColor (connectHandler initialSrv "c1").1
    "c1" (JSValue.jstr "alice") (JSValue.jstr "alice2")
    [Event.connect "c2", Event.join "c1" "alice" "general" none]
    (by decide) (by decide) (by decide) (by decide) (by decide)

end Blueprint
